import Mathlib

/-!
Verification development for the qa-angular-ui client of the QA Test Generator.

The TypeScript sources under `src/qa-angular-ui/src/app` (plus the unnamed
parts holding `TestListComponent` and `AuthInterceptor`) are shallowly
embedded below.  JavaScript strings become `List Char`; the Angular HTTP
layer becomes explicit request values; observables delivering responses
asynchronously become an event list consumed by an explicit step function,
so that submissions, response deliveries and error deliveries can be
interleaved exactly as the browser event loop would interleave them.
-/

/-- JavaScript strings are modelled as lists of characters. -/
abbrev Chars := List Char

/-- A value stored in a TS record of type Record(string, unknown),
as used for the `options` payload. -/
inductive JValue where
  | str (v : Chars)
  | bool (v : Bool)
  | num (v : Nat)
deriving DecidableEq

/-- The `options` payload: a TS record from string keys to values. -/
abbrev OptionsMap := List (Chars × JValue)

/-- Key lookup in an options record. -/
def optLookup (k : Chars) : OptionsMap → Option JValue
  | [] => none
  | (k₂, v) :: rest => if k₂ = k then some v else optLookup k rest

/-- HTTP methods offered by `ApiService` (api.service.ts). -/
inductive HttpMethod where
  | get
  | post
  | put
  | delete
deriving DecidableEq

/-- `GenerateRequest` from test-generator.service.ts:
`{ screenId: string; options?: Record<string, unknown> }`. -/
structure GenerateRequest where
  screenId : Chars
  options : OptionsMap
deriving DecidableEq

/-- An outgoing HTTP request descriptor, as assembled by `ApiService`
and seen by `AuthInterceptor`. -/
structure HttpRequest where
  method : HttpMethod
  url : Chars
  headers : List (Chars × Chars)
  params : Option OptionsMap
  body : Option GenerateRequest
deriving DecidableEq

/-- Embeds the test `path.startsWith('/')` used in every `ApiService`
method (api.service.ts). -/
def startsWithSlash : Chars → Bool
  | [] => false
  | c :: _ => c == '/'

/-- Spec-side helper: the string starts with two slashes. -/
def startsWith2Slash : Chars → Bool
  | c :: d :: _ => c == '/' && d == '/'
  | _ => false

/-- Spec-side helper: the string ends with a slash. -/
def endsWithSlash (s : Chars) : Bool := startsWithSlash s.reverse

/-- Spec-side helper: the string ends with two slashes. -/
def endsWith2Slash (s : Chars) : Bool := startsWith2Slash s.reverse

/-- Spec-side helper: drop one leading slash when present. -/
def stripLeadingSlash : Chars → Chars
  | c :: t => if c == '/' then t else c :: t
  | [] => []

/-- The `base` field of `ApiService` (api.service.ts line 8): the
configured base URL with one trailing slash removed when present,
embedding the regex replace of a single trailing slash. -/
def ApiService.base (apiBaseUrl : Chars) : Chars :=
  (stripLeadingSlash apiBaseUrl.reverse).reverse

/-- The ternary `path.startsWith('/') ? path : '/' + path` from
api.service.ts. -/
def ApiService.normalizePath (path : Chars) : Chars :=
  if startsWithSlash path then path else '/' :: path

/-- The request URL computed identically in `ApiService.get`, `.post`,
`.put` and `.delete`: the normalized base concatenated with the
normalized path. -/
def ApiService.url (apiBaseUrl path : Chars) : Chars :=
  ApiService.base apiBaseUrl ++ ApiService.normalizePath path

/-- The request descriptor dispatched by `ApiService.get`. -/
def ApiService.getRequest (apiBaseUrl path : Chars) (params : Option OptionsMap) : HttpRequest :=
  ⟨HttpMethod.get, ApiService.url apiBaseUrl path, [], params, none⟩

/-- The request descriptor dispatched by `ApiService.post`. -/
def ApiService.postRequest (apiBaseUrl path : Chars) (headers : List (Chars × Chars))
    (body : GenerateRequest) : HttpRequest :=
  ⟨HttpMethod.post, ApiService.url apiBaseUrl path, headers, none, some body⟩

/-- The request descriptor dispatched by `ApiService.put`. -/
def ApiService.putRequest (apiBaseUrl path : Chars) (body : GenerateRequest) : HttpRequest :=
  ⟨HttpMethod.put, ApiService.url apiBaseUrl path, [], none, some body⟩

/-- The request descriptor dispatched by `ApiService.delete`. -/
def ApiService.deleteRequest (apiBaseUrl path : Chars) : HttpRequest :=
  ⟨HttpMethod.delete, ApiService.url apiBaseUrl path, [], none, none⟩

/-- `ApiService.post` with the transport itself abstracted as `handler`:
it dispatches exactly the one request it builds and hands the
transport response back to the caller untouched. -/
def ApiService.post {α : Type} (handler : HttpRequest → α) (apiBaseUrl path : Chars)
    (headers : List (Chars × Chars)) (body : GenerateRequest) : List HttpRequest × α :=
  ([ApiService.postRequest apiBaseUrl path headers body],
   handler (ApiService.postRequest apiBaseUrl path headers body))

/-- The TS default parameter value of `options` in
`TestGeneratorService.generate` (test-generator.service.ts line 14):
the empty record. -/
def TestGeneratorService.defaultOptions : OptionsMap := []

/-- The single POST request that `TestGeneratorService.generate`
composes: body `{ screenId, options }`, path `/tests/generate`, no
extra headers. -/
def TestGeneratorService.generateRequest (apiBaseUrl screenId : Chars)
    (options : OptionsMap) : HttpRequest :=
  ApiService.postRequest apiBaseUrl ("/tests/generate".toList) [] ⟨screenId, options⟩

/-- `TestGeneratorService.generate` (test-generator.service.ts lines
14-17): builds the body and delegates to `ApiService.post`. -/
def TestGeneratorService.generate {α : Type} (handler : HttpRequest → α)
    (apiBaseUrl screenId : Chars) (options : OptionsMap) : List HttpRequest × α :=
  ApiService.post handler apiBaseUrl ("/tests/generate".toList) [] ⟨screenId, options⟩

/-- `AuthInterceptor.intercept` (unnamed part_003): the placeholder
interceptor returns `next.handle(req)` on the unmodified request. -/
def AuthInterceptor.intercept {α : Type} (req : HttpRequest) (next : HttpRequest → α) : α :=
  next req

/-- The status enum of test-case.model.ts. -/
inductive TestStatus where
  | queued
  | running
  | passed
  | failed
deriving DecidableEq

/-- `TestCase` from test-case.model.ts; optional TS fields become
`Option`. -/
structure TestCase where
  testId : Chars
  name : Option Chars
  createdAt : Option Chars
  status : Option TestStatus
  metadata : Option OptionsMap
deriving DecidableEq

/-- The generate response shape `{ testId, status, tests }` documented
in the project README; `tests` is `Option` so that a response in which
the field is absent is representable. -/
structure GenerationResult where
  testId : Chars
  status : Chars
  tests : Option (List TestCase)
deriving DecidableEq

/-- `ApiError`: the error object `{ code, message }`. -/
structure ApiError where
  code : Chars
  message : Chars
deriving DecidableEq

/-- `ApiResponse` from api-response.model.ts.  The `error` field of the
TS interface may be absent (`none`), present but null (`some none`),
or an error object (`some (some e)`). -/
structure ApiResponse (T : Type) where
  data : Option T
  error : Option (Option ApiError)
  meta : Option OptionsMap
deriving DecidableEq

/-- The mutable view state of `GenerateTestComponent`
(generate-test.component.ts): the reactive form holds `screenId`, the
`result` field starts undefined, and `pending` counts in-flight
subscriptions whose responses have not been delivered yet.  The state
is parametric in the response type because `result` is typed `any`. -/
structure GenState (α : Type) where
  screenId : Chars
  result : Option α
  pending : Nat
deriving DecidableEq

/-- Initial component state: form control value is the empty string,
no result, nothing in flight. -/
def GenerateTestComponent.initState {α : Type} : GenState α :=
  ⟨[], none, 0⟩

/-- Browser events affecting `GenerateTestComponent`: typing into the
form, hitting submit, an in-flight call resolving with a response, or
an in-flight call failing with an `ApiError`. -/
inductive GenEvent (α : Type) where
  | setScreenId (v : Chars)
  | submit
  | respond (r : α)
  | fail (e : ApiError)

/-- One event step of `GenerateTestComponent`.  `submit()` checks
`this.form.valid` (the single control has `Validators.required`, so
validity is non-emptiness of `screenId`) and then calls
`this.gen.generate(screenId)` with `options` omitted, subscribing
`res => this.result = res`.  A response delivery runs that callback;
an error delivery runs no callback because `subscribe` was given no
error handler.  Each step also reports the requests it dispatched. -/
def GenerateTestComponent.step {α : Type} (apiBaseUrl : Chars) (s : GenState α) :
    GenEvent α → GenState α × List HttpRequest
  | GenEvent.setScreenId v => ({ s with screenId := v }, [])
  | GenEvent.submit =>
      if s.screenId = [] then (s, [])
      else ({ s with pending := s.pending + 1 },
            [TestGeneratorService.generateRequest apiBaseUrl s.screenId
              TestGeneratorService.defaultOptions])
  | GenEvent.respond r =>
      if s.pending = 0 then (s, [])
      else ({ s with result := some r, pending := s.pending - 1 }, [])
  | GenEvent.fail _ =>
      if s.pending = 0 then (s, [])
      else ({ s with pending := s.pending - 1 }, [])

/-- Run a sequence of events from a state, collecting every dispatched
request in order. -/
def GenerateTestComponent.runEvents {α : Type} (apiBaseUrl : Chars) (s : GenState α) :
    List (GenEvent α) → GenState α × List HttpRequest
  | [] => (s, [])
  | e :: es =>
      ((GenerateTestComponent.runEvents apiBaseUrl
          (GenerateTestComponent.step apiBaseUrl s e).1 es).1,
       (GenerateTestComponent.step apiBaseUrl s e).2
         ++ (GenerateTestComponent.runEvents apiBaseUrl
              (GenerateTestComponent.step apiBaseUrl s e).1 es).2)

/-- The view state of `TestListComponent` (unnamed part_002): the
`tests` field, declared as an array and initialized to `[]`. -/
structure TestListState where
  tests : List TestCase
deriving DecidableEq

/-- Field initializer `tests: any[] = []`. -/
def TestListComponent.initState : TestListState := ⟨[]⟩

/-- `ngOnInit`: issues `GET /tests` through `ApiService` and leaves the
state untouched until the subscription delivers a response. -/
def TestListComponent.ngOnInit (apiBaseUrl : Chars) (s : TestListState) :
    TestListState × List HttpRequest :=
  (s, [ApiService.getRequest apiBaseUrl ("/tests".toList) none])

/-- The subscription callback `x => this.tests = x`. -/
def TestListComponent.onTests (_s : TestListState) (x : List TestCase) : TestListState :=
  ⟨x⟩

/-- The template iteration: one rendered row per element of `tests`,
showing `testId` and `status`. -/
def TestListComponent.render (s : TestListState) : List (Chars × Option TestStatus) :=
  s.tests.map (fun t => (t.testId, t.status))

theorem normalizePath_eq_slash_cons (p : Chars) :
    ApiService.normalizePath p = '/' :: stripLeadingSlash p := by
  cases p with
  | nil => rfl
  | cons c t =>
      simp only [ApiService.normalizePath, startsWithSlash, stripLeadingSlash]
      by_cases h : c = '/'
      · subst h; simp
      · simp [h]

theorem stripLeadingSlash_no_slash (p : Chars) (h : startsWith2Slash p = false) :
    startsWithSlash (stripLeadingSlash p) = false := by
  cases p with
  | nil => rfl
  | cons c t =>
      cases t with
      | nil =>
          simp only [stripLeadingSlash, startsWithSlash]
          by_cases hc : c = '/'
          · subst hc; simp [startsWithSlash]
          · simp [hc, startsWithSlash]
      | cons d t₂ =>
          simp only [startsWith2Slash, Bool.and_eq_false_eq_eq_false_or_eq_false] at h
          simp only [stripLeadingSlash, startsWithSlash]
          by_cases hc : c = '/'
          · subst hc; simp only [beq_self_eq_true, if_true, startsWithSlash]
            rcases h with h | h
            · simp at h
            · exact h
          · simp [hc, startsWithSlash]

theorem stripLeadingSlash_disj (p : Chars) :
    p = stripLeadingSlash p ∨ p = '/' :: stripLeadingSlash p := by
  cases p with
  | nil => left; rfl
  | cons c t =>
      simp only [stripLeadingSlash]
      by_cases hc : c = '/'
      · subst hc; simp
      · simp [hc]

theorem apiServiceBase_no_trailing_slash (u : Chars) (h : endsWith2Slash u = false) :
    endsWithSlash (ApiService.base u) = false := by
  unfold endsWithSlash ApiService.base
  rw [List.reverse_reverse]
  exact stripLeadingSlash_no_slash _ h

theorem apiServiceBase_disj (u : Chars) :
    u = ApiService.base u ∨ u = ApiService.base u ++ [ '/' ] := by
  unfold ApiService.base
  rcases stripLeadingSlash_disj u.reverse with h | h
  · left
    conv_lhs => rw [← List.reverse_reverse u]
    rw [← h]
  · right
    have h₂ : ('/' :: stripLeadingSlash u.reverse).reverse = u := by
      rw [← h, List.reverse_reverse]
    rw [← List.reverse_cons]
    exact h₂.symm

/-- Claim C1: for every path input with or without a leading or trailing
slash, and for every configured base URL with or without a trailing
slash, all four `ApiService` methods construct the request URL as base
and path joined by exactly one slash (the base stripped of its one
trailing slash, one joining slash, the path stripped of its one leading
slash). -/
theorem ApiService.url_single_slash (apiBaseUrl path : Chars)
    (ps : Option OptionsMap) (hs : List (Chars × Chars)) (bd : GenerateRequest)
    (hb : endsWith2Slash apiBaseUrl = false) (hp : startsWith2Slash path = false) :
    ApiService.url apiBaseUrl path
        = ApiService.base apiBaseUrl ++ '/' :: stripLeadingSlash path
      ∧ endsWithSlash (ApiService.base apiBaseUrl) = false
      ∧ startsWithSlash (stripLeadingSlash path) = false
      ∧ (apiBaseUrl = ApiService.base apiBaseUrl
          ∨ apiBaseUrl = ApiService.base apiBaseUrl ++ [ '/' ])
      ∧ (path = stripLeadingSlash path ∨ path = '/' :: stripLeadingSlash path)
      ∧ (ApiService.getRequest apiBaseUrl path ps).url = ApiService.url apiBaseUrl path
      ∧ (ApiService.postRequest apiBaseUrl path hs bd).url = ApiService.url apiBaseUrl path
      ∧ (ApiService.putRequest apiBaseUrl path bd).url = ApiService.url apiBaseUrl path
      ∧ (ApiService.deleteRequest apiBaseUrl path).url = ApiService.url apiBaseUrl path := by
  refine ⟨?_, apiServiceBase_no_trailing_slash _ hb, stripLeadingSlash_no_slash _ hp,
    apiServiceBase_disj _, stripLeadingSlash_disj _, rfl, rfl, rfl, rfl⟩
  unfold ApiService.url
  rw [normalizePath_eq_slash_cons]

theorem ApiService.url_single_slash_witness :
    endsWith2Slash ("http://localhost:8000/api/".toList) = false
      ∧ startsWith2Slash ("tests".toList) = false
      ∧ (ApiService.url ("http://localhost:8000/api/".toList) ("tests".toList)
            = ApiService.base ("http://localhost:8000/api/".toList)
                ++ '/' :: stripLeadingSlash ("tests".toList)
          ∧ endsWithSlash (ApiService.base ("http://localhost:8000/api/".toList)) = false
          ∧ startsWithSlash (stripLeadingSlash ("tests".toList)) = false
          ∧ ("http://localhost:8000/api/".toList
                = ApiService.base ("http://localhost:8000/api/".toList)
              ∨ "http://localhost:8000/api/".toList
                = ApiService.base ("http://localhost:8000/api/".toList) ++ [ '/' ])
          ∧ ("tests".toList = stripLeadingSlash ("tests".toList)
              ∨ "tests".toList = '/' :: stripLeadingSlash ("tests".toList))
          ∧ (ApiService.getRequest ("http://localhost:8000/api/".toList) ("tests".toList) none).url
              = ApiService.url ("http://localhost:8000/api/".toList) ("tests".toList)
          ∧ (ApiService.postRequest ("http://localhost:8000/api/".toList) ("tests".toList) []
                ⟨[], []⟩).url
              = ApiService.url ("http://localhost:8000/api/".toList) ("tests".toList)
          ∧ (ApiService.putRequest ("http://localhost:8000/api/".toList) ("tests".toList)
                ⟨[], []⟩).url
              = ApiService.url ("http://localhost:8000/api/".toList) ("tests".toList)
          ∧ (ApiService.deleteRequest ("http://localhost:8000/api/".toList) ("tests".toList)).url
              = ApiService.url ("http://localhost:8000/api/".toList) ("tests".toList)) :=
  ⟨by decide, by decide,
    ApiService.url_single_slash ("http://localhost:8000/api/".toList) ("tests".toList)
      none [] ⟨[], []⟩ (by decide) (by decide)⟩

/-- Claim C2: every invocation of `TestGeneratorService.generate` with a
non-empty screenId issues exactly one POST, to `/tests/generate`, with
body exactly the record of screenId and options, and hands the transport
response back to the caller unchanged. -/
theorem TestGeneratorService.generate_single_post {α : Type} (handler : HttpRequest → α)
    (apiBaseUrl screenId : Chars) (options : OptionsMap) (hs : screenId ≠ []) :
    (TestGeneratorService.generate handler apiBaseUrl screenId options).1
        = [TestGeneratorService.generateRequest apiBaseUrl screenId options]
      ∧ (TestGeneratorService.generateRequest apiBaseUrl screenId options).method
        = HttpMethod.post
      ∧ (TestGeneratorService.generateRequest apiBaseUrl screenId options).url
        = ApiService.url apiBaseUrl ("/tests/generate".toList)
      ∧ (TestGeneratorService.generateRequest apiBaseUrl screenId options).body
        = some ⟨screenId, options⟩
      ∧ (TestGeneratorService.generate handler apiBaseUrl screenId options).2
        = handler (TestGeneratorService.generateRequest apiBaseUrl screenId options) :=
  ⟨rfl, rfl, rfl, rfl, rfl⟩

theorem TestGeneratorService.generate_single_post_witness :
    ("screen_123".toList ≠ ([] : Chars))
      ∧ ((TestGeneratorService.generate (fun r => r.url) ("http://localhost:8000/api".toList)
            ("screen_123".toList) []).1
          = [TestGeneratorService.generateRequest ("http://localhost:8000/api".toList)
              ("screen_123".toList) []]
        ∧ (TestGeneratorService.generateRequest ("http://localhost:8000/api".toList)
              ("screen_123".toList) []).method = HttpMethod.post
        ∧ (TestGeneratorService.generateRequest ("http://localhost:8000/api".toList)
              ("screen_123".toList) []).url
            = ApiService.url ("http://localhost:8000/api".toList) ("/tests/generate".toList)
        ∧ (TestGeneratorService.generateRequest ("http://localhost:8000/api".toList)
              ("screen_123".toList) []).body
            = some ⟨"screen_123".toList, []⟩
        ∧ (TestGeneratorService.generate (fun r => r.url) ("http://localhost:8000/api".toList)
              ("screen_123".toList) []).2
            = (fun r => r.url) (TestGeneratorService.generateRequest
                ("http://localhost:8000/api".toList) ("screen_123".toList) [])) :=
  ⟨by decide,
    TestGeneratorService.generate_single_post (fun r => r.url)
      ("http://localhost:8000/api".toList) ("screen_123".toList) [] (by decide)⟩

theorem GenerateTestComponent.runEvents_append {α : Type} (b : Chars) (s : GenState α)
    (es es₂ : List (GenEvent α)) :
    (GenerateTestComponent.runEvents b s (es ++ es₂)).1
      = (GenerateTestComponent.runEvents b (GenerateTestComponent.runEvents b s es).1 es₂).1 := by
  induction es generalizing s with
  | nil => simp [GenerateTestComponent.runEvents]
  | cons e es ih => simp [GenerateTestComponent.runEvents, ih]

theorem GenerateTestComponent.respond_applies {α : Type} (b : Chars) (s : GenState α)
    (es : List (GenEvent α)) (r : α)
    (hp : (GenerateTestComponent.runEvents b s es).1.pending ≠ 0) :
    (GenerateTestComponent.runEvents b s (es ++ [GenEvent.respond r])).1.result = some r := by
  rw [GenerateTestComponent.runEvents_append]
  simp [GenerateTestComponent.runEvents, GenerateTestComponent.step, hp]

/-- Claim C3 counterexample: two overlapping submissions; the
second-issued call resolves first (response for tst_2 arrives, then the
response for tst_1 issued first arrives).  The final held result is the
first call's response, not the second's: the later-arriving stale
response is applied, not discarded. -/
theorem GenerateTestComponent.staleResponseOverwrites :
    ((GenerateTestComponent.runEvents ("http://localhost:8000/api".toList)
        GenerateTestComponent.initState
        [GenEvent.setScreenId ("screen_123".toList), GenEvent.submit, GenEvent.submit,
         GenEvent.respond (⟨"tst_2".toList, "queued".toList, some []⟩ : GenerationResult),
         GenEvent.respond (⟨"tst_1".toList, "queued".toList, some []⟩ : GenerationResult)]).1).result
        = some ⟨"tst_1".toList, "queued".toList, some []⟩
      ∧ ((GenerateTestComponent.runEvents ("http://localhost:8000/api".toList)
          GenerateTestComponent.initState
          [GenEvent.setScreenId ("screen_123".toList), GenEvent.submit, GenEvent.submit,
           GenEvent.respond (⟨"tst_2".toList, "queued".toList, some []⟩ : GenerationResult),
           GenEvent.respond (⟨"tst_1".toList, "queued".toList, some []⟩ : GenerationResult)]).1).result
        ≠ some ⟨"tst_2".toList, "queued".toList, some []⟩ := by
  constructor
  · decide
  · decide

/-- Claim C3 amended: the coordinator applies responses in completion
order with no stale-response guard — after any event sequence that
leaves a call in flight, delivering a response makes it the held
result, whichever submission it answers; the last-completed response
always wins. -/
theorem GenerateTestComponent.lastCompletionWins {α : Type} (b : Chars) (s : GenState α)
    (es : List (GenEvent α)) (r : α)
    (hp : (GenerateTestComponent.runEvents b s es).1.pending ≠ 0) :
    (GenerateTestComponent.runEvents b s (es ++ [GenEvent.respond r])).1.result = some r :=
  GenerateTestComponent.respond_applies b s es r hp

theorem GenerateTestComponent.lastCompletionWins_witness :
    ((GenerateTestComponent.runEvents ("http://localhost:8000/api".toList)
        (GenerateTestComponent.initState (α := Nat))
        [GenEvent.setScreenId ("screen_123".toList), GenEvent.submit]).1.pending ≠ 0)
      ∧ (GenerateTestComponent.runEvents ("http://localhost:8000/api".toList)
          (GenerateTestComponent.initState (α := Nat))
          ([GenEvent.setScreenId ("screen_123".toList), GenEvent.submit]
            ++ [GenEvent.respond 5])).1.result = some 5 :=
  ⟨by decide,
    GenerateTestComponent.lastCompletionWins ("http://localhost:8000/api".toList)
      GenerateTestComponent.initState
      [GenEvent.setScreenId ("screen_123".toList), GenEvent.submit] 5 (by decide)⟩

/-- Claim C4 counterexample: a generate response in which the `tests`
field is absent is exposed to the UI with `tests` still absent — the
component stores the raw response, and nothing projects the missing
field to an empty sequence. -/
theorem GenerateTestComponent.absentTestsStaysAbsent :
    ((GenerateTestComponent.runEvents ("http://localhost:8000/api".toList)
        GenerateTestComponent.initState
        [GenEvent.setScreenId ("screen_123".toList), GenEvent.submit,
         GenEvent.respond (⟨"tst_9".toList, "queued".toList, none⟩ : GenerationResult)]).1).result
        = some ⟨"tst_9".toList, "queued".toList, none⟩
      ∧ (⟨"tst_9".toList, "queued".toList, none⟩ : GenerationResult).tests = none
      ∧ (none : Option (List TestCase)) ≠ some [] := by
  refine ⟨by decide, rfl, by decide⟩

/-- Claim C4 amended: the value exposed to the UI is the raw generate
response unchanged; its `tests` field is carried over verbatim, so an
absent `tests` field stays absent rather than being projected to an
empty sequence. -/
theorem GenerateTestComponent.testsFieldUnprojected (b : Chars)
    (s : GenState GenerationResult) (es : List (GenEvent GenerationResult))
    (r : GenerationResult)
    (hp : (GenerateTestComponent.runEvents b s es).1.pending ≠ 0) :
    ((GenerateTestComponent.runEvents b s (es ++ [GenEvent.respond r])).1.result).map
        GenerationResult.tests = some r.tests := by
  rw [GenerateTestComponent.respond_applies b s es r hp]
  rfl

theorem GenerateTestComponent.testsFieldUnprojected_witness :
    ((GenerateTestComponent.runEvents ("http://localhost:8000/api".toList)
        (GenerateTestComponent.initState (α := GenerationResult))
        [GenEvent.setScreenId ("screen_123".toList), GenEvent.submit]).1.pending ≠ 0)
      ∧ ((GenerateTestComponent.runEvents ("http://localhost:8000/api".toList)
          (GenerateTestComponent.initState (α := GenerationResult))
          ([GenEvent.setScreenId ("screen_123".toList), GenEvent.submit]
            ++ [GenEvent.respond (⟨"tst_9".toList, "queued".toList, none⟩ : GenerationResult)])).1.result).map
          GenerationResult.tests
        = some (⟨"tst_9".toList, "queued".toList, none⟩ : GenerationResult).tests :=
  ⟨by decide,
    GenerateTestComponent.testsFieldUnprojected ("http://localhost:8000/api".toList)
      GenerateTestComponent.initState
      [GenEvent.setScreenId ("screen_123".toList), GenEvent.submit]
      ⟨"tst_9".toList, "queued".toList, none⟩ (by decide)⟩

/-- A concrete envelope carrying both a data payload and a non-null
error, used to exercise the error-precedence claim. -/
def envelopeBoth : ApiResponse GenerationResult :=
  ⟨some ⟨"tst_7".toList, "queued".toList, some []⟩,
   some (some ⟨"RATE_LIMIT".toList, "too many requests".toList⟩),
   none⟩

/-- Claim C5 counterexample: a response envelope carrying both `data`
and a non-null `error` is stored whole as the component result, so the
`data` payload is exposed to the UI right alongside the error — no
precedence is applied. -/
theorem GenerateTestComponent.envelopeDataStillExposed :
    ((GenerateTestComponent.runEvents ("http://localhost:8000/api".toList)
        GenerateTestComponent.initState
        [GenEvent.setScreenId ("screen_123".toList), GenEvent.submit,
         GenEvent.respond envelopeBoth]).1).result = some envelopeBoth
      ∧ envelopeBoth.error
        = some (some ⟨"RATE_LIMIT".toList, "too many requests".toList⟩)
      ∧ (((GenerateTestComponent.runEvents ("http://localhost:8000/api".toList)
          GenerateTestComponent.initState
          [GenEvent.setScreenId ("screen_123".toList), GenEvent.submit,
           GenEvent.respond envelopeBoth]).1).result).map ApiResponse.data
        = some (some ⟨"tst_7".toList, "queued".toList, some []⟩) := by
  refine ⟨by decide, rfl, by decide⟩

/-- Claim C5 amended: the component stores the response envelope
unchanged; when both `data` and a non-null `error` are present, both
fields are exposed verbatim to the UI — the error takes no precedence
and the data is not suppressed. -/
theorem GenerateTestComponent.envelopeUnprojected (b : Chars)
    (s : GenState (ApiResponse GenerationResult))
    (es : List (GenEvent (ApiResponse GenerationResult)))
    (env : ApiResponse GenerationResult)
    (hp : (GenerateTestComponent.runEvents b s es).1.pending ≠ 0) :
    ((GenerateTestComponent.runEvents b s (es ++ [GenEvent.respond env])).1.result).map
        (fun v => (v.data, v.error)) = some (env.data, env.error) := by
  rw [GenerateTestComponent.respond_applies b s es env hp]
  rfl

theorem GenerateTestComponent.envelopeUnprojected_witness :
    ((GenerateTestComponent.runEvents ("http://localhost:8000/api".toList)
        (GenerateTestComponent.initState (α := ApiResponse GenerationResult))
        [GenEvent.setScreenId ("screen_123".toList), GenEvent.submit]).1.pending ≠ 0)
      ∧ ((GenerateTestComponent.runEvents ("http://localhost:8000/api".toList)
          (GenerateTestComponent.initState (α := ApiResponse GenerationResult))
          ([GenEvent.setScreenId ("screen_123".toList), GenEvent.submit]
            ++ [GenEvent.respond envelopeBoth])).1.result).map
          (fun v => (v.data, v.error))
        = some (envelopeBoth.data, envelopeBoth.error) :=
  ⟨by decide,
    GenerateTestComponent.envelopeUnprojected ("http://localhost:8000/api".toList)
      GenerateTestComponent.initState
      [GenEvent.setScreenId ("screen_123".toList), GenEvent.submit]
      envelopeBoth (by decide)⟩

/-- Claim C6 counterexample: after a successful result is held, a new
submission fails with code RATE_LIMIT; the component has no error
callback, so the held state still shows the stale previous snapshot and
carries the error code and message nowhere. -/
theorem GenerateTestComponent.failedCallNotSurfaced :
    ((GenerateTestComponent.runEvents ("http://localhost:8000/api".toList)
        GenerateTestComponent.initState
        [GenEvent.setScreenId ("screen_123".toList), GenEvent.submit,
         GenEvent.respond (⟨"tst_1".toList, "passed".toList, some []⟩ : GenerationResult),
         GenEvent.submit,
         GenEvent.fail ⟨"RATE_LIMIT".toList, "too many requests".toList⟩]).1).result
        = some ⟨"tst_1".toList, "passed".toList, some []⟩
      ∧ (GenerateTestComponent.runEvents ("http://localhost:8000/api".toList)
          GenerateTestComponent.initState
          [GenEvent.setScreenId ("screen_123".toList), GenEvent.submit,
           GenEvent.respond (⟨"tst_1".toList, "passed".toList, some []⟩ : GenerationResult),
           GenEvent.submit,
           GenEvent.fail ⟨"RATE_LIMIT".toList, "too many requests".toList⟩]).1
        = ⟨"screen_123".toList, some ⟨"tst_1".toList, "passed".toList, some []⟩, 0⟩ := by
  refine ⟨by decide, by decide⟩

/-- Claim C6 amended: on any failed call the coordinator's held result
is unchanged — the subscription has no error callback, so no errored
state is entered, the error code and message are not exposed, and any
previous snapshot is retained as-is. -/
theorem GenerateTestComponent.failureKeepsResult {α : Type} (b : Chars) (s : GenState α)
    (es : List (GenEvent α)) (e : ApiError) :
    (GenerateTestComponent.runEvents b s (es ++ [GenEvent.fail e])).1.result
      = (GenerateTestComponent.runEvents b s es).1.result := by
  rw [GenerateTestComponent.runEvents_append]
  by_cases h : (GenerateTestComponent.runEvents b s es).1.pending = 0 <;>
    simp [GenerateTestComponent.runEvents, GenerateTestComponent.step, h]

/-- Claim C7: the request augmentation hook forwards to dispatch exactly
the descriptor it received — for every request and every continuation,
`intercept` is the pass-through of `next` applied to the unmodified
request, with method, url, headers and body unchanged. -/
theorem AuthInterceptor.interceptPassThrough (α : Type) (next : HttpRequest → α)
    (req : HttpRequest) :
    AuthInterceptor.intercept req next = next req
      ∧ (AuthInterceptor.intercept req (fun r => r)).method = req.method
      ∧ (AuthInterceptor.intercept req (fun r => r)).url = req.url
      ∧ (AuthInterceptor.intercept req (fun r => r)).headers = req.headers
      ∧ (AuthInterceptor.intercept req (fun r => r)).body = req.body :=
  ⟨rfl, rfl, rfl, rfl, rfl⟩

/-- Claim C8 counterexample: a submit with options omitted dispatches a
POST whose options field is the TS default — the empty record — which
carries no depth entry and no includeEdgeCases entry, so no value of
shape depth/includeEdgeCases is applied. -/
theorem TestGeneratorService.defaultIsEmptyRecord :
    (GenerateTestComponent.step ("http://localhost:8000/api".toList)
        (⟨"screen_123".toList, none, 0⟩ : GenState GenerationResult) GenEvent.submit).2
        = [TestGeneratorService.generateRequest ("http://localhost:8000/api".toList)
            ("screen_123".toList) TestGeneratorService.defaultOptions]
      ∧ (TestGeneratorService.generateRequest ("http://localhost:8000/api".toList)
            ("screen_123".toList) TestGeneratorService.defaultOptions).body
        = some ⟨"screen_123".toList, []⟩
      ∧ optLookup ("depth".toList) TestGeneratorService.defaultOptions = none
      ∧ optLookup ("includeEdgeCases".toList) TestGeneratorService.defaultOptions = none := by
  refine ⟨by decide, rfl, rfl, rfl⟩

/-- Claim C8 amended: when a generate submission omits options, the
client applies the TS default value, the empty record, before
dispatch — the POST body's options field is exactly the empty record,
with no depth or includeEdgeCases entries. -/
theorem GenerateTestComponent.submitAppliesEmptyDefault {α : Type} (b : Chars)
    (s : GenState α) (h : s.screenId ≠ []) :
    (GenerateTestComponent.step b s GenEvent.submit).2
        = [TestGeneratorService.generateRequest b s.screenId
            TestGeneratorService.defaultOptions]
      ∧ (TestGeneratorService.generateRequest b s.screenId
            TestGeneratorService.defaultOptions).body
        = some ⟨s.screenId, TestGeneratorService.defaultOptions⟩
      ∧ TestGeneratorService.defaultOptions = ([] : OptionsMap) := by
  refine ⟨?_, rfl, rfl⟩
  simp [GenerateTestComponent.step, h]

theorem GenerateTestComponent.submitAppliesEmptyDefault_witness :
    ((⟨"screen_123".toList, none, 0⟩ : GenState Nat).screenId ≠ [])
      ∧ ((GenerateTestComponent.step ("http://localhost:8000/api".toList)
            (⟨"screen_123".toList, none, 0⟩ : GenState Nat) GenEvent.submit).2
          = [TestGeneratorService.generateRequest ("http://localhost:8000/api".toList)
              (⟨"screen_123".toList, none, 0⟩ : GenState Nat).screenId
              TestGeneratorService.defaultOptions]
        ∧ (TestGeneratorService.generateRequest ("http://localhost:8000/api".toList)
              (⟨"screen_123".toList, none, 0⟩ : GenState Nat).screenId
              TestGeneratorService.defaultOptions).body
          = some ⟨(⟨"screen_123".toList, none, 0⟩ : GenState Nat).screenId,
              TestGeneratorService.defaultOptions⟩
        ∧ TestGeneratorService.defaultOptions = ([] : OptionsMap)) :=
  ⟨by decide,
    GenerateTestComponent.submitAppliesEmptyDefault ("http://localhost:8000/api".toList)
      (⟨"screen_123".toList, none, 0⟩ : GenState Nat) (by decide)⟩

/-- Claim C9: a submit while the form is invalid (empty screenId) is a
no-op — the step dispatches no request and leaves the whole component
state, in particular the held result, unchanged. -/
theorem GenerateTestComponent.invalidSubmitNoop {α : Type} (b : Chars) (s : GenState α)
    (h : s.screenId = []) :
    GenerateTestComponent.step b s GenEvent.submit = (s, []) := by
  simp [GenerateTestComponent.step, h]

theorem GenerateTestComponent.invalidSubmitNoop_witness :
    ((GenerateTestComponent.initState (α := Nat)).screenId = [])
      ∧ GenerateTestComponent.step ("http://localhost:8000/api".toList)
          (GenerateTestComponent.initState (α := Nat)) GenEvent.submit
        = (GenerateTestComponent.initState, []) :=
  ⟨rfl,
    GenerateTestComponent.invalidSubmitNoop ("http://localhost:8000/api".toList)
      GenerateTestComponent.initState rfl⟩

/-- Claim C10: the test list state is initialized to the empty array,
`ngOnInit` only issues the GET to /tests without touching the state, so
before the call resolves the view holds an empty list and iterating it
renders zero entries. -/
theorem TestListComponent.initEmptyBeforeResolve (b : Chars) :
    TestListComponent.initState.tests = ([] : List TestCase)
      ∧ (TestListComponent.ngOnInit b TestListComponent.initState).1.tests = []
      ∧ (TestListComponent.ngOnInit b TestListComponent.initState).2
        = [ApiService.getRequest b ("/tests".toList) none]
      ∧ TestListComponent.render (TestListComponent.ngOnInit b TestListComponent.initState).1
        = [] :=
  ⟨rfl, rfl, rfl, rfl⟩
